import Mathlib

/-!
Shallow embedding of the electron-rpc-poc RPC layer
(`src/lib/rpc-proxy.ts`, `src/lib/rpc-descriptor-types.ts`,
`src/lib/remote-object-registry.ts`, with the later iteration of
`getProxyObject` from the corpus where a claim cites it).

JavaScript values are modelled by `JSVal`; objects and functions live in an
explicit heap (`List (Nat × HObj)`) addressed by `Nat`, so in-place mutation
and reference equality are expressible.  The two communicating `RPCService`
instances share one heap, exactly as in the jest mock channel of
`rpc-proxy.test.ts`, where messages cross by reference inside one process.
Thrown JavaScript errors are modelled by the string that `toString()` would
produce on them; `Error` objects carry their `message` and stringify with an
"Error: " front marker.  Recursive walks over the heap take an explicit fuel
argument; fuel 0 returns the input unchanged and every concrete theorem runs
with ample fuel.
-/

namespace RpcPoc

/-- A JavaScript value: primitive, or a reference into the shared heap. -/
inductive JSVal where
  | undefined
  | null
  | bool (b : Bool)
  | num (n : Int)
  | str (s : String)
  | ref (addr : Nat)
deriving Repr, DecidableEq

/-- FunctionReturnType of rpc-descriptor-types.ts: sync, async or void. -/
inductive CallKind where
  | sync
  | async
  | void
deriving Repr, DecidableEq

/-- The action field of a call message (RPC_CallAction). -/
inductive CallAction where
  | fn_call
  | mthd_call
  | prop_get
  | prop_set
deriving Repr, DecidableEq

/-- One duck-typed descriptor record, covering the union
FunctionDescriptor, PropertyDescriptor, ObjectDescriptor and ClassDescriptor
of rpc-descriptor-types.ts: in the source these are structurally typed
JavaScript objects whose optional fields may each be absent.
An argument descriptor is a pair of its optional `idx` and the rest. -/
inductive Descr where
  | mk (dtype : Option String)
       (name : Option String)
       (returns : Option CallKind)
       (arguments : List (Option Nat × Descr))
       (argument : Option (Option Nat × Descr))
       (readonly : Bool)
       (functions : List (String ⊕ Descr))
       (proxiedProperties : List (String ⊕ Descr))
       (readonlyProperties : List String)
       (classId : Option String)
deriving Repr

def Descr.dtype : Descr → Option String
  | .mk t _ _ _ _ _ _ _ _ _ => t

def Descr.name : Descr → Option String
  | .mk _ n _ _ _ _ _ _ _ _ => n

def Descr.returns : Descr → Option CallKind
  | .mk _ _ r _ _ _ _ _ _ _ => r

def Descr.arguments : Descr → List (Option Nat × Descr)
  | .mk _ _ _ a _ _ _ _ _ _ => a

def Descr.argument : Descr → Option (Option Nat × Descr)
  | .mk _ _ _ _ a _ _ _ _ _ => a

def Descr.readonly : Descr → Bool
  | .mk _ _ _ _ _ r _ _ _ _ => r

def Descr.functions : Descr → List (String ⊕ Descr)
  | .mk _ _ _ _ _ _ f _ _ _ => f

def Descr.proxiedProperties : Descr → List (String ⊕ Descr)
  | .mk _ _ _ _ _ _ _ p _ _ => p

def Descr.readonlyProperties : Descr → List String
  | .mk _ _ _ _ _ _ _ _ r _ => r

def Descr.classId : Descr → Option String
  | .mk _ _ _ _ _ _ _ _ _ c => c

/-- Replace the `type` field of a descriptor (`descriptor.type = ...`). -/
def Descr.withDtype (d : Descr) (t : String) : Descr :=
  match d with
  | .mk _ n r as a ro f p rp c => .mk (some t) n r as a ro f p rp c

/-- Descriptor with every optional field absent (a bare record). -/
def Descr.empty : Descr :=
  .mk none none none [] none false [] [] [] none

/-- Function descriptor with just a `name` field (`\x7b name: prop \x7d`). -/
def Descr.named (s : Option String) : Descr :=
  .mk none s none [] none false [] [] [] none

/-- getPropName of rpc-descriptor-types.ts: a bare string names itself,
otherwise take the `name` field (undefined becomes the empty key). -/
def getPropName : String ⊕ Descr → String
  | .inl s => s
  | .inr d => d.name.getD ""

/-- getArgumentDescriptorByIdx: first argument descriptor whose `idx` is
absent or equals the given index; undefined function descriptors have none. -/
def getArgumentDescriptorByIdx (func : Option Descr) (idx : Nat) :
    Option (Option Nat × Descr) :=
  match func with
  | none => none
  | some d => d.arguments.find? (fun a => a.1 = none ∨ a.1 = some idx)

/-- getFunctionDescriptor: find an object-form entry of `functions` with the
given name. -/
def getFunctionDescriptor (descriptor : Descr) (funcName : String) :
    Option Descr :=
  (descriptor.functions.find? (fun f =>
    match f with
    | .inl _ => false
    | .inr d => d.name = some funcName)).bind (fun f =>
      match f with
      | .inl _ => none
      | .inr d => some d)

/-- getPropertyDescriptor: find an object-form entry of `proxiedProperties`
with the given name; bare-string entries are skipped by the `typeof` test. -/
def getPropertyDescriptor (descriptor : Descr) (propName : String) :
    Option Descr :=
  (descriptor.proxiedProperties.find? (fun p =>
    match p with
    | .inl _ => false
    | .inr d => d.name = some propName)).bind (fun p =>
      match p with
      | .inl _ => none
      | .inr d => some d)

/-- Own enumerable data fields of a heap object, in insertion order. -/
abbrev Fields := List (String × JSVal)

/-- Read a field; a missing key reads as undefined. -/
def Fields.get (fs : Fields) (k : String) : JSVal :=
  match fs.find? (fun p => p.1 = k) with
  | some p => p.2
  | none => .undefined

/-- Write a field in place: overwrite an existing key, else append. -/
def Fields.set (fs : Fields) (k : String) (v : JSVal) : Fields :=
  if fs.any (fun p => p.1 = k) then
    fs.map (fun p => if p.1 = k then (k, v) else p)
  else
    fs ++ [(k, v)]

/-- What a proxy function closes over and does when invoked:
either a native user function (identified by an index into the ambient
implementation table) or one of the three generated proxy strategies of
createVoidProxyFunction / createSyncProxyFunction / createAsyncProxyFunction,
carrying the remote objId, the function descriptor and the call action. -/
inductive FnCode where
  | native (implId : Nat)
  | proxy (kind : CallKind) (objId : String) (descr : Descr)
      (action : CallAction)
deriving Repr

/-- A heap object: a plain object (with the `_rpc_classId` of its constructor,
when its class was registered, its data fields, its accessor properties
installed by Object.defineProperty — name, getter ref, optional setter ref,
not enumerable, hence not walked by Object.keys — and its prototype link),
or a function with its expando fields (`_rpc_objId`, `rpc_disposed`). -/
inductive HObj where
  | obj (ctorClassId : Option String) (fields : Fields)
      (accessors : List (String × JSVal × Option JSVal))
      (proto : Option Nat)
  | func (code : FnCode) (fields : Fields)
deriving Repr

def HObj.fields : HObj → Fields
  | .obj _ fs _ _ => fs
  | .func _ fs => fs

def HObj.setFields : HObj → Fields → HObj
  | .obj c _ a p, fs => .obj c fs a p
  | .func c _, fs => .func c fs

abbrev Heap := List (Nat × HObj)

def Heap.get (h : Heap) (a : Nat) : Option HObj :=
  (h.find? (fun p => p.1 = a)).map (·.2)

def Heap.set (h : Heap) (a : Nat) (o : HObj) : Heap :=
  if h.any (fun p => p.1 = a) then
    h.map (fun p => if p.1 = a then (a, o) else p)
  else
    h ++ [(a, o)]

/-- Read field `k` of the heap object at `a` (undefined when absent). -/
def Heap.getField (h : Heap) (a : Nat) (k : String) : JSVal :=
  match h.get a with
  | some o => o.fields.get k
  | none => .undefined

/-- Write field `k` of the heap object at `a` in place. -/
def Heap.setField (h : Heap) (a : Nat) (k : String) (v : JSVal) : Heap :=
  match h.get a with
  | some o => h.set a (o.setFields (o.fields.set k v))
  | none => h

/-- One call message (fn_call, mthd_call, prop_get, prop_set), carrying the
call type, the target objId, the property name (`prop: func.name`, possibly
undefined), the serialized arguments, the correlation id of an async call and
the protocol marker set by addMarker. -/
structure CallMsg where
  action : CallAction
  callType : CallKind
  objId : String
  prop : Option String
  args : List JSVal
  callId : Option Nat
  rpc_marker : Bool
deriving Repr, DecidableEq

/-- An fn_reply message: call type, success flag, result payload, async
correlation id, protocol marker. -/
structure ReplyMsg where
  callType : CallKind
  success : Bool
  result : JSVal
  callId : Option Nat
  rpc_marker : Bool
deriving Repr, DecidableEq

/-- The wire vocabulary used by the claims: calls, replies and obj_died. -/
inductive Msg where
  | call (m : CallMsg)
  | fnReply (r : ReplyMsg)
  | objDied (objId : String) (rpc_marker : Bool)
deriving Repr, DecidableEq

/-- Which of the optional channel primitives are present (RPCChannel has
optional sendSync and sendAsync members). -/
structure ChannelCaps where
  hasSync : Bool
  hasAsync : Bool
deriving Repr, DecidableEq

/-- Observable host-side happening: a native target function was applied. -/
inductive Event where
  | applied (implId : Nat) (scope : JSVal) (args : List JSVal)
deriving Repr, DecidableEq

/-- Behavior table for native (user-written) functions: a native function is
pure in all modelled scenarios; it returns a value or throws (the error is
modelled by its JavaScript string form). -/
abbrev Impl := Nat → JSVal → List JSVal → Except String JSVal

/-- An entry of localObjectRegistry: the live target and its descriptor
(undefined for callbacks registered without an argument descriptor). -/
structure LocalEntry where
  target : JSVal
  descriptor : Option Descr

/-- One FinalizationRegistry registration: the unregister token, and the
objId and address captured by the held rpc_dispose closure. -/
structure FinEntry where
  token : Nat
  objId : String
  addr : Nat
deriving Repr, DecidableEq

/-- Per-service state of one RPCService instance.  remoteObjectRegistry is
the RemoteObjectRegistry map (objId to the proxy it holds through a WeakRef,
modelled as the address, always live until gcFinalize);  finRegistry models
its FinalizationRegistry;  proxyObjectRegistry is the registry of the later
getProxyObject iteration;  nextId feeds the injected unique-id generator and
nextToken numbers finalization tokens;  asyncCallbacks holds the callIds with
pending promise callbacks. -/
structure Svc where
  localObjectRegistry : List (String × LocalEntry)
  remoteObjectRegistry : List (String × Nat)
  finRegistry : List FinEntry
  classRegistry : List (String × Descr)
  remoteObjectDescriptors : List (String × Descr)
  remoteClassDescriptors : List (String × Descr)
  proxyObjectRegistry : List (String × Nat)
  nextToken : Nat
  nextId : Nat
  callId : Nat
  asyncCallbacks : List Nat

/-- A service with no registrations and fresh counters. -/
def Svc.empty : Svc :=
  ⟨[], [], [], [], [], [], [], 0, 0, 0, []⟩

/-- Map.set semantics on an association list: overwrite or append. -/
def listSet {α : Type} (l : List (String × α)) (k : String) (v : α) :
    List (String × α) :=
  if l.any (fun p => p.1 = k) then
    l.map (fun p => if p.1 = k then (k, v) else p)
  else
    l ++ [(k, v)]

/-- Map.get semantics on an association list. -/
def listGet {α : Type} (l : List (String × α)) (k : String) : Option α :=
  (l.find? (fun p => p.1 = k)).map (·.2)

/-- The injected unique-id generator (nanoid in the source), made
deterministic by a counter. -/
def genId (n : Nat) : String :=
  "id" ++ toString n

/-- One service together with the shared heap: the state every private
method of RPCService touches. -/
structure Ctx where
  svc : Svc
  heap : Heap
  nextAddr : Nat

/-- registerLocalObj of rpc-proxy.ts: reuse the `_rpc_objId` already stamped
on the object when it is still registered, otherwise draw a fresh id,
register the target with its descriptor and stamp the id onto the object. -/
def registerLocalObj (c : Ctx) (addr : Nat) (descriptor : Option Descr) :
    Ctx × String :=
  let existing : Option String :=
    match c.heap.getField addr "_rpc_objId" with
    | .str s => if c.svc.localObjectRegistry.any (fun e => e.1 = s) then some s else none
    | _ => none
  match existing with
  | some s => (c, s)
  | none =>
    let objId := genId c.svc.nextId
    let svc := { c.svc with
      localObjectRegistry :=
        listSet c.svc.localObjectRegistry objId ⟨.ref addr, descriptor⟩,
      nextId := c.svc.nextId + 1 }
    (⟨svc, c.heap.setField addr "_rpc_objId" (.str objId), c.nextAddr⟩, objId)

/-- RemoteObjectRegistry.register: stamp `rpc_disposed = false` on the proxy,
install the rpc_dispose closure (its captured objId and unregister token are
recorded as a finalization entry), and map the objId to the proxy through a
WeakRef. -/
def remoteRegistryRegister (c : Ctx) (objId : String) (addr : Nat) :
    Ctx :=
  let token := c.svc.nextToken
  let svc := { c.svc with
    finRegistry := c.svc.finRegistry ++ [⟨token, objId, addr⟩],
    remoteObjectRegistry := listSet c.svc.remoteObjectRegistry objId addr,
    nextToken := token + 1 }
  ⟨svc, c.heap.setField addr "rpc_disposed" (.bool false), c.nextAddr⟩

/-- registerTargetObject: force `descriptor.type` to the typeof of the target
and store the entry under the caller-supplied id. -/
def registerTargetObject (c : Ctx) (objId : String) (target : JSVal)
    (descriptor : Descr) : Ctx :=
  let t := match target with
    | .ref a =>
      match c.heap.get a with
      | some (.func _ _) => "function"
      | _ => "object"
    | _ => "object"
  { c with svc := { c.svc with
      localObjectRegistry := listSet c.svc.localObjectRegistry objId
        ⟨target, some (descriptor.withDtype t)⟩ } }

/-- The two communicating RPCService instances sharing one heap, as in the
jest mock channel where both endpoints live in one process. -/
inductive Side where
  | A
  | B
deriving Repr, DecidableEq

def Side.other : Side → Side
  | .A => .B
  | .B => .A

structure World where
  heap : Heap
  nextAddr : Nat
  svcA : Svc
  svcB : Svc

def World.ctx (w : World) : Side → Ctx
  | .A => ⟨w.svcA, w.heap, w.nextAddr⟩
  | .B => ⟨w.svcB, w.heap, w.nextAddr⟩

def World.withCtx (w : World) : Side → Ctx → World
  | .A, c => ⟨c.heap, c.nextAddr, c.svc, w.svcB⟩
  | .B, c => ⟨c.heap, c.nextAddr, w.svcA, c.svc⟩

/-- Install an accessor property (Object.defineProperty with get/set). -/
def Heap.addAccessor (h : Heap) (a : Nat) (name : String) (getter : JSVal)
    (setter : Option JSVal) : Heap :=
  match h.get a with
  | some (.obj c fs acc p) => h.set a (.obj c fs (acc ++ [(name, getter, setter)]) p)
  | _ => h

/-- Object.setPrototypeOf on a plain heap object. -/
def Heap.setProto (h : Heap) (a : Nat) (proto : Nat) : Heap :=
  match h.get a with
  | some (.obj c fs acc _) => h.set a (.obj c fs acc (some proto))
  | _ => h

/-- Look up the accessor pair of a proxied property. -/
def Heap.getAccessor (h : Heap) (a : Nat) (name : String) :
    Option (JSVal × Option JSVal) :=
  match h.get a with
  | some (.obj _ _ acc _) => (acc.find? (fun e => e.1 = name)).map (·.2)
  | _ => none

/-- createProxyFunction: normalize the string-or-descriptor `prop` argument
(a bare name or an absent descriptor becomes a record with only `name`),
pick the strategy from `descriptor.returns` with the given default, and
allocate the generated function.  The replyChannel the source closes over is
supplied at invocation time in the model. -/
def createProxyFunction (c : Ctx) (objId : String)
    (prop : Option (String ⊕ Descr)) (action : CallAction)
    (defaultCallType : CallKind) : Ctx × Nat :=
  let descriptor : Descr :=
    match prop with
    | some (.inr d) => d
    | some (.inl s) => Descr.named (some s)
    | none => Descr.named none
  let kind := descriptor.returns.getD defaultCallType
  let addr := c.nextAddr
  (⟨c.svc, c.heap.set addr (.func (.proxy kind objId descriptor action) []),
    addr + 1⟩, addr)

/-- createRemoteObject: populate `obj` with an mthd_call proxy function per
declared function, and an accessor per proxied property whose getter is a
prop_get proxy (default sync) and whose setter is a prop_set proxy (default
sync) — except that a descriptor-form property with `readonly` set gets no
setter. -/
def createRemoteObject (c : Ctx) (objId : String) (descriptor : Descr)
    (objAddr : Nat) : Ctx :=
  let c := descriptor.functions.foldl
    (fun c prop =>
      let (c, fnAddr) := createProxyFunction c objId (some prop) .mthd_call .async
      { c with heap := c.heap.setField objAddr (getPropName prop) (.ref fnAddr) })
    c
  descriptor.proxiedProperties.foldl
    (fun c prop =>
      let (c, getAddr) := createProxyFunction c objId (some prop) .prop_get .sync
      let readonlyProp : Bool :=
        match prop with
        | .inr d => d.readonly
        | .inl _ => false
      if readonlyProp then
        let heap := c.heap.addAccessor objAddr (getPropName prop) (.ref getAddr) none
        { c with heap := heap }
      else
        let (c, setAddr) := createProxyFunction c objId (some prop) .prop_set .sync
        let heap := c.heap.addAccessor objAddr (getPropName prop) (.ref getAddr)
          (some (.ref setAddr))
        { c with heap := heap })
    c

/-- createProxyObject of src/lib/rpc-proxy.ts: look the descriptor up, build
a proxy function for a function-typed descriptor, otherwise build a fresh
plain object and populate it; there is no memoization here. -/
def createProxyObject (c : Ctx) (objId : String) : Ctx × Except String JSVal :=
  match listGet c.svc.remoteObjectDescriptors objId with
  | none => (c, .error ("Error: No object registered with ID " ++ objId))
  | some descriptor =>
    if descriptor.dtype = some "function" then
      let (c, fnAddr) := createProxyFunction c objId (some (.inr descriptor)) .fn_call .async
      (c, .ok (.ref fnAddr))
    else
      let objAddr := c.nextAddr
      let c := ⟨c.svc, c.heap.set objAddr (.obj none [] [] none), objAddr + 1⟩
      let c := createRemoteObject c objId descriptor objAddr
      (c, .ok (.ref objAddr))

/-- getProxyObject of the later iteration (src/unnamed/part_011): return the
memoized proxy when the proxy registry already has one for this id, else
create it as createProxyObject does and register it. -/
def getProxyObject (c : Ctx) (objId : String) : Ctx × Except String JSVal :=
  match listGet c.svc.proxyObjectRegistry objId with
  | some addr => (c, .ok (.ref addr))
  | none =>
    match createProxyObject c objId with
    | (c, .error e) => (c, .error e)
    | (c, .ok v) =>
      match v with
      | .ref addr =>
        ({ c with svc := { c.svc with
            proxyObjectRegistry := listSet c.svc.proxyObjectRegistry objId addr } },
         .ok v)
      | _ => (c, .ok v)

/-- createRemoteFunction: reuse the registered proxy for this objId when the
remote-object registry still holds one, else force `type = function` on the
argument descriptor, create an fn_call proxy (default async) and register it
with a dispose callback that will send obj_died. -/
def createRemoteFunction (c : Ctx) (objId : String) (descriptor : Option Descr) :
    Ctx × JSVal :=
  match listGet c.svc.remoteObjectRegistry objId with
  | some addr => (c, .ref addr)
  | none =>
    let descriptor := descriptor.map (fun d => d.withDtype "function")
    let (c, fnAddr) := createProxyFunction c objId (descriptor.map .inr) .fn_call .async
    let c := remoteRegistryRegister c objId fnAddr
    (c, .ref fnAddr)

/-- createRemoteInstance: reuse the registered proxy instance for this objId;
otherwise, when the classId has an exchanged class descriptor, build the
proxy prototype, register the shipped props object with a dispose callback,
and link the props object to the prototype.  An unknown classId yields none
(the caller falls through to the structural walk). -/
def createRemoteInstance (c : Ctx) (objId : String) (classId : Option String)
    (props : JSVal) : Ctx × Option JSVal :=
  if (c.svc.remoteObjectRegistry.any (fun e => e.1 = objId)) then
    (c, (listGet c.svc.remoteObjectRegistry objId).map .ref)
  else
    match classId.bind (fun cid => listGet c.svc.remoteClassDescriptors cid) with
    | some descriptor =>
      let protoAddr := c.nextAddr
      let c : Ctx := ⟨c.svc, c.heap.set protoAddr (.obj none [] [] none), protoAddr + 1⟩
      let c := createRemoteObject c objId descriptor protoAddr
      match props with
      | .ref propsAddr =>
        let c := remoteRegistryRegister c objId propsAddr
        (⟨c.svc, c.heap.setProto propsAddr protoAddr, c.nextAddr⟩, some props)
      | _ => (c, some props)
    | none => (c, none)

mutual

/-- preprocessSerialization together with its two interior loops (the
Object.keys walk that rewrites fields in place, and the readonlyProperties
gather of a registered class instance).  Fuel bounds the total number of
visited nodes; fuel 0 leaves the value untouched.  A registered class
instance or a function is replaced by its wire token, a freshly allocated
plain object. -/
def preprocessSerialization (fuel : Nat) (c : Ctx) (v : JSVal)
    (descriptor : Option Descr) : Ctx × JSVal :=
  match fuel with
  | 0 => (c, v)
  | fuel + 1 =>
    match v with
    | .ref a =>
      match c.heap.get a with
      | some (.obj ctorClassId _ _ _) =>
        match ctorClassId.bind (fun cid => listGet c.svc.classRegistry cid) with
        | some entryDescr =>
          let (c, objId) := registerLocalObj c a (some entryDescr)
          let (c, props) := preprocessProps fuel c a entryDescr.readonlyProperties []
          let propsAddr := c.nextAddr
          let c : Ctx := ⟨c.svc, c.heap.set propsAddr (.obj none props [] none),
            propsAddr + 1⟩
          let tokenAddr := c.nextAddr
          let token : Fields :=
            [("_rpc_type", .str "object"), ("objId", .str objId),
             ("classId", match entryDescr.classId with
               | some s => .str s
               | none => .undefined),
             ("props", .ref propsAddr)]
          let c : Ctx := ⟨c.svc, c.heap.set tokenAddr (.obj none token [] none),
            tokenAddr + 1⟩
          (c, .ref tokenAddr)
        | none =>
          let keys := match c.heap.get a with
            | some o => o.fields.map (·.1)
            | none => []
          (preprocessFields fuel c a keys, v)
      | some (.func _ _) =>
        let (c, objId) := registerLocalObj c a descriptor
        let tokenAddr := c.nextAddr
        let c : Ctx := ⟨c.svc,
          c.heap.set tokenAddr
            (.obj none [("_rpc_type", .str "function"), ("objId", .str objId)] [] none),
          tokenAddr + 1⟩
        (c, .ref tokenAddr)
      | none => (c, v)
    | _ => (c, v)

def preprocessFields (fuel : Nat) (c : Ctx) (addr : Nat) (keys : List String) :
    Ctx :=
  match fuel with
  | 0 => c
  | fuel + 1 =>
    match keys with
    | [] => c
    | k :: rest =>
      let (c, v) := preprocessSerialization fuel c (c.heap.getField addr k) none
      let c : Ctx := ⟨c.svc, c.heap.setField addr k v, c.nextAddr⟩
      preprocessFields fuel c addr rest

def preprocessProps (fuel : Nat) (c : Ctx) (srcAddr : Nat)
    (names : List String) (acc : Fields) : Ctx × Fields :=
  match fuel with
  | 0 => (c, acc)
  | fuel + 1 =>
    match names with
    | [] => (c, acc)
    | n :: rest =>
      let (c, v) := preprocessSerialization fuel c (c.heap.getField srcAddr n) none
      preprocessProps fuel c srcAddr rest (acc.set n v)

end

mutual

/-- postprocessSerialization and its Object.keys walk: a function token
becomes a memoized proxy function, an object token a memoized proxy instance
when its class is known (falling through to the structural walk otherwise),
and everything else recurses structurally in place. -/
def postprocessSerialization (fuel : Nat) (c : Ctx) (v : JSVal)
    (descriptor : Option Descr) : Ctx × JSVal :=
  match fuel with
  | 0 => (c, v)
  | fuel + 1 =>
    match v with
    | .ref a =>
      match c.heap.get a with
      | some (.obj _ fields _ _) =>
        if fields.get "_rpc_type" = .str "function" then
          match fields.get "objId" with
          | .str objId => createRemoteFunction c objId descriptor
          | _ => createRemoteFunction c "" descriptor
        else
          let viaInstance :=
            if fields.get "_rpc_type" = .str "object" then
              let objId := match fields.get "objId" with
                | .str s => s
                | _ => ""
              let classId := match fields.get "classId" with
                | .str s => some s
                | _ => none
              createRemoteInstance c objId classId (fields.get "props")
            else (c, none)
          match viaInstance with
          | (c, some inst) => (c, inst)
          | (c, none) =>
            let keys := match c.heap.get a with
              | some o => o.fields.map (·.1)
              | none => []
            (postprocessFields fuel c a keys, v)
      | _ => (c, v)
    | _ => (c, v)

def postprocessFields (fuel : Nat) (c : Ctx) (addr : Nat)
    (keys : List String) : Ctx :=
  match fuel with
  | 0 => c
  | fuel + 1 =>
    match keys with
    | [] => c
    | k :: rest =>
      let (c, v) := postprocessSerialization fuel c (c.heap.getField addr k) none
      let c : Ctx := ⟨c.svc, c.heap.setField addr k v, c.nextAddr⟩
      postprocessFields fuel c addr rest

end

/-- serializeFunctionArgs: preprocess each argument under the descriptor
selected for its position. -/
def serializeArgsFrom (fuel : Nat) (c : Ctx) (func : Option Descr)
    (args : List JSVal) (idx : Nat) : Ctx × List JSVal :=
  match args with
  | [] => (c, [])
  | a :: rest =>
    let (c, a') := preprocessSerialization fuel c a
      ((getArgumentDescriptorByIdx func idx).map (·.2))
    let (c, rest') := serializeArgsFrom fuel c func rest (idx + 1)
    (c, a' :: rest')

def serializeFunctionArgs (fuel : Nat) (c : Ctx) (func : Option Descr)
    (args : List JSVal) : Ctx × List JSVal :=
  serializeArgsFrom fuel c func args 0

/-- deserializeFunctionArgs: postprocess each argument under the descriptor
selected for its position. -/
def deserializeArgsFrom (fuel : Nat) (c : Ctx) (func : Option Descr)
    (args : List JSVal) (idx : Nat) : Ctx × List JSVal :=
  match args with
  | [] => (c, [])
  | a :: rest =>
    let (c, a') := postprocessSerialization fuel c a
      ((getArgumentDescriptorByIdx func idx).map (·.2))
    let (c, rest') := deserializeArgsFrom fuel c func rest (idx + 1)
    (c, a' :: rest')

def deserializeFunctionArgs (fuel : Nat) (c : Ctx) (func : Option Descr)
    (args : List JSVal) : Ctx × List JSVal :=
  deserializeArgsFrom fuel c func args 0

/-- What `new Error(v)` puts into `message` (String(v) for a defined v). -/
def JSVal.toMessage : JSVal → String
  | .undefined => ""
  | .null => "null"
  | .bool b => if b then "true" else "false"
  | .num n => toString n
  | .str s => s
  | .ref _ => "[object Object]"

/-- Apply the resolved call target to the deserialized arguments
(`target.apply(scope, this.deserializeFunctionArgs(...))`).  Applying a
native function records one event and runs its pure behavior; a deserialized
proxy target would re-enter the channel from inside dispatch, a nested path
no claim exercises, so the model reports it as an error; a non-function
target raises the TypeError that `.apply` would. -/
def applyTarget (impl : Impl) (fuel : Nat) (c : Ctx) (descriptor : Option Descr)
    (scope target : JSVal) (args : List JSVal) :
    Ctx × List Event × Except String JSVal :=
  let (c, dArgs) := deserializeFunctionArgs fuel c descriptor args
  match target with
  | .ref a =>
    match c.heap.get a with
    | some (.func (.native implId) _) =>
      (c, [.applied implId scope dArgs], impl implId scope dArgs)
    | some (.func (.proxy _ _ _ _) _) =>
      (c, [], .error "Error: nested proxy invocation outside the model")
    | _ => (c, [], .error "TypeError: target.apply is not a function")
  | _ => (c, [], .error "TypeError: target.apply is not a function")

/-- The try-block of callTargetFunction: resolve the registry entry and
branch on the action.  prop_get reads the live field; prop_set resolves the
property descriptor — reading `.argument` off the undefined result of
getPropertyDescriptor for a string-declared property raises a TypeError —
and writes the postprocessed value; mthd_call resolves the method descriptor
and the method, binds the target as scope and falls through to the fn_call
application.  The error strings are the toString forms of the thrown
errors (the model leaves out the quote characters around interpolated
names). -/
def dispatchAction (impl : Impl) (fuel : Nat) (c : Ctx) (msg : CallMsg) :
    Ctx × List Event × Except String JSVal :=
  match listGet c.svc.localObjectRegistry msg.objId with
  | none =>
    (c, [], .error ("Error: No object found with ID " ++ msg.objId))
  | some entry =>
    match msg.action with
    | .prop_get =>
      let result := match entry.target with
        | .ref a => c.heap.getField a (msg.prop.getD "")
        | _ => .undefined
      (c, [], .ok result)
    | .prop_set =>
      match entry.descriptor with
      | none =>
        (c, [], .error "TypeError: Cannot read properties of undefined (reading proxiedProperties)")
      | some d =>
        match getPropertyDescriptor d (msg.prop.getD "") with
        | none =>
          (c, [], .error "TypeError: Cannot read properties of undefined (reading argument)")
        | some propDescr =>
          let (c, v) := postprocessSerialization fuel c (msg.args.headD .undefined)
            (propDescr.argument.map (·.2))
          match entry.target with
          | .ref a =>
            (⟨c.svc, c.heap.setField a (msg.prop.getD "") v, c.nextAddr⟩, [], .ok .undefined)
          | _ => (c, [], .ok .undefined)
    | .mthd_call =>
      match entry.descriptor with
      | none =>
        (c, [], .error "TypeError: Cannot read properties of undefined (reading functions)")
      | some d =>
        let descriptor := getFunctionDescriptor d (msg.prop.getD "")
        let target := match entry.target with
          | .ref a => c.heap.getField a (msg.prop.getD "")
          | _ => .undefined
        applyTarget impl fuel c descriptor entry.target target msg.args
    | .fn_call =>
      applyTarget impl fuel c entry.descriptor .null entry.target msg.args

/-- The try/catch of callTargetFunction: run the action, preprocess a
successful result for the wire, convert a thrown error to its string form
with success = false. -/
def dispatchCall (impl : Impl) (fuel : Nat) (c : Ctx) (msg : CallMsg) :
    Ctx × List Event × Bool × JSVal :=
  match dispatchAction impl fuel c msg with
  | (c, evs, .error e) => (c, evs, false, .str e)
  | (c, evs, .ok r) =>
    let (c, r) := preprocessSerialization fuel c r none
    (c, evs, true, r)

/-- Output of handling one inbound message: the updated receiver, the events
it caused, the reply captured by the reply channel sendSync if any, the
replies pushed through the reply channel sendAsync, and the async calls the
receiver settled (callId, success, value). -/
structure RecvOut where
  ctx : Ctx
  events : List Event
  syncReply : Option ReplyMsg
  asyncReplies : List ReplyMsg
  settled : List (Nat × Bool × JSVal)

/-- The reply part of callTargetFunction: a sync call sends exactly one
synchronous fn_reply whether the call succeeded or threw (transmitted when
the reply channel has sendSync); an async call sends exactly one async
fn_reply — from the Promise chain on success (the microtask is collapsed;
results in the modelled scenarios are never promises) or directly after the
catch on failure — transmitted when the reply channel has sendAsync;
a void call sends nothing under any outcome. -/
def callTargetFunction (impl : Impl) (fuel : Nat) (c : Ctx) (msg : CallMsg)
    (replyCaps : ChannelCaps) : RecvOut :=
  let (c, evs, success, result) := dispatchCall impl fuel c msg
  match msg.callType with
  | .sync =>
    if replyCaps.hasSync then
      ⟨c, evs, some ⟨.sync, success, result, none, true⟩, [], []⟩
    else
      ⟨c, evs, none, [], []⟩
  | .async =>
    if replyCaps.hasAsync then
      ⟨c, evs, none, [⟨.async, success, result, msg.callId, true⟩], []⟩
    else
      ⟨c, evs, none, [], []⟩
  | .void => ⟨c, evs, none, [], []⟩

/-- messageReceived: ignore unmarked traffic; dispatch call messages; delete
the local registry entry named by obj_died; resolve the pending promise of
an async fn_reply with the postprocessed result and drop its bookkeeping
entry. -/
def messageReceived (impl : Impl) (fuel : Nat) (c : Ctx) (m : Msg)
    (replyCaps : ChannelCaps) : RecvOut :=
  match m with
  | .call msg =>
    if msg.rpc_marker then
      callTargetFunction impl fuel c msg replyCaps
    else
      ⟨c, [], none, [], []⟩
  | .objDied objId marker =>
    if marker then
      let svc := { c.svc with
        localObjectRegistry :=
          c.svc.localObjectRegistry.filter (fun e => ¬ e.1 = objId) }
      ⟨⟨svc, c.heap, c.nextAddr⟩, [], none, [], []⟩
    else
      ⟨c, [], none, [], []⟩
  | .fnReply r =>
    if r.rpc_marker ∧ r.callType = .async then
      let (c, result) := postprocessSerialization fuel c r.result none
      match r.callId with
      | some cid =>
        if c.svc.asyncCallbacks.contains cid then
          let svc := { c.svc with
            asyncCallbacks := c.svc.asyncCallbacks.filter (fun x => ¬ x = cid) }
          ⟨⟨svc, c.heap, c.nextAddr⟩, [], none, [], [(cid, r.success, result)]⟩
        else
          ⟨c, [], none, [], []⟩
      | none => ⟨c, [], none, [], []⟩
    else
      ⟨c, [], none, [], []⟩

/-- Deliver a batch of async fn_reply messages back to their sender through
its messageReceived, collecting the settlements. -/
def deliverReplies (impl : Impl) (fuel : Nat) (c : Ctx) :
    List ReplyMsg → Ctx × List (Nat × Bool × JSVal)
  | [] => (c, [])
  | r :: rest =>
    let out := messageReceived impl fuel c (.fnReply r) ⟨false, false⟩
    let (c, settled) := deliverReplies impl fuel out.ctx rest
    (c, out.settled ++ settled)

/-- Outcome of invoking a proxy function from user code. -/
inductive Outcome where
  | ret (v : JSVal)
  | threw (message : String)
  | promiseSettled (callId : Nat) (success : Bool) (v : JSVal)
  | promisePending (callId : Nat)
  | promiseRejected (message : String)
deriving Repr, DecidableEq

/-- Invoke the generated proxy function at fnAddr owned by `side` with the
given arguments.  sendCaps are the capabilities of the channel the proxy
sends on; replyCaps those of the reply channel the transport hands to the
peer (in the jest mock its sendSync captures the reply for the blocked
caller and its sendAsync routes messages back to this side).

The void strategy checks rpc_disposed, serializes, and fires through
sendAsyncIfPossible (degrading to the synchronous send when only that
exists), ignoring any reply.  The sync strategy checks rpc_disposed,
serializes, and blocks on sendSync — when the channel has no sendSync the
optional call does nothing and the undefined response raises
"No response received"; a failure reply is rethrown with its string
payload as the message; a success reply is postprocessed and returned.
The async strategy runs inside a new Promise: a disposed proxy rejects,
otherwise it draws the next callId, sends through sendAsync when present
(the message is lost otherwise), records the pending callbacks, and the
microtask-collapsed peer turn plus reply delivery settles the promise. -/
def invokeProxy (impl : Impl) (fuel : Nat) (w : World) (side : Side)
    (fnAddr : Nat) (args : List JSVal) (sendCaps replyCaps : ChannelCaps) :
    World × List Event × Outcome :=
  match w.heap.get fnAddr with
  | some (.func (.proxy kind objId descr action) fields) =>
    match kind with
    | .void =>
      if fields.get "rpc_disposed" = .bool true then
        (w, [], .threw "Remote function has been disposed")
      else
        let c := w.ctx side
        let (c, sArgs) := serializeFunctionArgs fuel c (some descr) args
        let msg : CallMsg := ⟨action, .void, objId, descr.name, sArgs, none, true⟩
        let w := w.withCtx side c
        if sendCaps.hasAsync ∨ sendCaps.hasSync then
          let out := messageReceived impl fuel (w.ctx side.other) (.call msg) replyCaps
          (w.withCtx side.other out.ctx, out.events, .ret .undefined)
        else
          (w, [], .ret .undefined)
    | .sync =>
      if fields.get "rpc_disposed" = .bool true then
        (w, [], .threw "Remote function has been disposed")
      else
        let c := w.ctx side
        let (c, sArgs) := serializeFunctionArgs fuel c (some descr) args
        let msg : CallMsg := ⟨action, .sync, objId, descr.name, sArgs, none, true⟩
        let w := w.withCtx side c
        if sendCaps.hasSync then
          let out := messageReceived impl fuel (w.ctx side.other) (.call msg) replyCaps
          let w := w.withCtx side.other out.ctx
          match out.syncReply with
          | none => (w, out.events, .threw "No response received")
          | some r =>
            if ¬ r.rpc_marker then
              (w, out.events, .threw "Invalid response")
            else if ¬ r.success then
              (w, out.events, .threw r.result.toMessage)
            else
              let (cSelf, result) := postprocessSerialization fuel (w.ctx side) r.result none
              (w.withCtx side cSelf, out.events, .ret result)
        else
          (w, [], .threw "No response received")
    | .async =>
      if fields.get "rpc_disposed" = .bool true then
        (w, [], .promiseRejected "Remote function has been disposed")
      else
        let c := w.ctx side
        let c : Ctx := ⟨{ c.svc with callId := c.svc.callId + 1 }, c.heap, c.nextAddr⟩
        let cid := c.svc.callId
        let (c, sArgs) := serializeFunctionArgs fuel c (some descr) args
        let msg : CallMsg := ⟨action, .async, objId, descr.name, sArgs, some cid, true⟩
        let c : Ctx := ⟨{ c.svc with asyncCallbacks := c.svc.asyncCallbacks ++ [cid] },
          c.heap, c.nextAddr⟩
        let w := w.withCtx side c
        if sendCaps.hasAsync then
          let out := messageReceived impl fuel (w.ctx side.other) (.call msg) replyCaps
          let w := w.withCtx side.other out.ctx
          let (cSelf, settled) := deliverReplies impl fuel (w.ctx side) out.asyncReplies
          let w := w.withCtx side cSelf
          match settled.find? (fun s => s.1 = cid) with
          | some s => (w, out.events, .promiseSettled cid s.2.1 s.2.2)
          | none => (w, out.events, .promisePending cid)
        else
          (w, [], .promisePending cid)
  | _ => (w, [], .threw "TypeError: not a proxy function")

/-- sendObjectDied: push an obj_died notification for the id through
sendAsyncIfPossible; the peer deletes its local registry entry on receipt. -/
def sendObjectDied (impl : Impl) (fuel : Nat) (w : World) (side : Side)
    (objId : String) (caps : ChannelCaps) : World :=
  if caps.hasAsync ∨ caps.hasSync then
    let out := messageReceived impl fuel (w.ctx side.other) (.objDied objId true)
      ⟨false, false⟩
    w.withCtx side.other out.ctx
  else
    w

/-- The rpc_dispose closure installed by RemoteObjectRegistry.register on the
proxy at `addr` for `objId` with unregister token `token`: unregister the
finalization token, delete the registry entry, set rpc_disposed, and run the
dispose callback, which sends obj_died to the peer. -/
def rpcDispose (impl : Impl) (fuel : Nat) (w : World) (side : Side)
    (objId : String) (token : Nat) (addr : Nat) (caps : ChannelCaps) : World :=
  let c := w.ctx side
  let svc := { c.svc with
    finRegistry := c.svc.finRegistry.filter (fun e => ¬ e.token = token),
    remoteObjectRegistry :=
      c.svc.remoteObjectRegistry.filter (fun e => ¬ e.1 = objId) }
  let heap := c.heap.setField addr "rpc_disposed" (.bool true)
  let w := w.withCtx side ⟨svc, heap, c.nextAddr⟩
  sendObjectDied impl fuel w side objId caps

/-- The engine collects the object at `addr`: the FinalizationRegistry fires
the held rpc_dispose callback of its still-registered entry for that object,
if any. -/
def gcFinalize (impl : Impl) (fuel : Nat) (w : World) (side : Side)
    (addr : Nat) (caps : ChannelCaps) : World :=
  match (w.ctx side).svc.finRegistry.find? (fun e => e.addr = addr) with
  | some e => rpcDispose impl fuel w side e.objId e.token e.addr caps
  | none => w

/-- getDescriptors: snapshot the descriptors of a registry. -/
def getDescriptors (reg : List (String × LocalEntry)) : List (String × Descr) :=
  reg.filterMap (fun e => e.2.descriptor.map (fun d => (e.1, d)))

/-- The descriptor exchange (sendRemoteDescriptors answered by
setRemoteDescriptors): the peer of `fromSide` receives the object and class
descriptor maps. -/
def exchangeDescriptors (w : World) (fromSide : Side) : World :=
  let src := (w.ctx fromSide).svc
  let dst := w.ctx fromSide.other
  let svc := { dst.svc with
    remoteObjectDescriptors := getDescriptors src.localObjectRegistry,
    remoteClassDescriptors := src.classRegistry }
  w.withCtx fromSide.other ⟨svc, dst.heap, dst.nextAddr⟩

def Descr.withClassId (d : Descr) (cid : String) : Descr :=
  match d with
  | .mk t n r as a ro f p rp _ => .mk t n r as a ro f p rp (some cid)

/-- registerProxyClass: default the classId of the descriptor to the
registration id and record the class; instances are recognized through the
`_rpc_classId` stamped on the constructor, modelled as the ctorClassId of the
instance heap objects (the static side, registered through
registerTargetObject when present, is not needed by the claims). -/
def registerProxyClass (c : Ctx) (classId : String) (descriptor : Descr) : Ctx :=
  let d := match descriptor.classId with
    | some _ => descriptor
    | none => descriptor.withClassId classId
  { c with svc := { c.svc with classRegistry := listSet c.svc.classRegistry classId d } }

/-!  Concrete scenarios used by the claim theorems.  -/

/-- Native function behaviors of the scenarios: 0 is `add(a,b){return a+b}`;
1 always throws `new Error(ErRoR)`; 2 is a callback that returns undefined;
3 echoes its first argument; 4 is a host function accepting a callback and
returning undefined. -/
def implTable : Impl := fun implId _ args =>
  match implId with
  | 0 =>
    match args with
    | [.num a, .num b] => .ok (.num (a + b))
    | _ => .error "Error: bad arguments"
  | 1 => .error "Error: ErRoR"
  | 2 => .ok .undefined
  | 3 => .ok (args.headD .undefined)
  | 4 => .ok .undefined
  | _ => .error "Error: no such function"

def fullCaps : ChannelCaps := ⟨true, true⟩
def asyncOnlyCaps : ChannelCaps := ⟨false, true⟩
def syncOnlyCaps : ChannelCaps := ⟨true, false⟩

/-- Descriptor for the sync function add. -/
def addDescr : Descr := .mk none (some "add") (some CallKind.sync) [] none false [] [] [] none

/-- Descriptor of the host object exposing add. -/
def servDescr : Descr :=
  .mk none none none [] none false [Sum.inr addDescr] [] [] none

/-- Host heap for the add scenario: the host object at 0 and its native add
method at 1. -/
def addWorld0 : World :=
  ⟨[(0, .obj none [("add", .ref 1)] [] none), (1, .func (.native 0) [])], 2,
   Svc.empty, Svc.empty⟩

/-- The add scenario after registration and descriptor exchange. -/
def addWorld : World :=
  exchangeDescriptors
    (addWorld0.withCtx .A (registerTargetObject (addWorld0.ctx .A) "servobj" (.ref 0) servDescr))
    .A

/-- The client builds its proxy for servobj. -/
def addProxyBuilt : Ctx × Except String JSVal :=
  createProxyObject (addWorld.ctx .B) "servobj"

def addWorldReady : World := addWorld.withCtx .B addProxyBuilt.1

/-- C1: with the host object `add(a,b) = a+b` registered under servobj
with `add` declared sync and descriptors exchanged, the client proxy object
holds a generated `add`; invoking it with any two numbers dispatches one
sync mthd_call whose handling applies the host target exactly once to the
deserialized arguments, and the proxy call returns the host result
synchronously — in particular `add(2,3)` returns 5 with exactly one host
invocation. -/
theorem c1_sync_proxy_call_returns_host_result :
    addWorldReady.heap.getField 2 "add" = JSVal.ref 3 ∧
    (∀ a b : Int,
      (invokeProxy implTable 10 addWorldReady .B 3 [.num a, .num b] fullCaps fullCaps).2
        = ([Event.applied 0 (.ref 0) [.num a, .num b]],
           Outcome.ret (.num (a + b)))) := by
  exact ⟨rfl, fun a b => rfl⟩

/-- Descriptor of the sync host function that always throws. -/
def failDescr : Descr := .mk none none (some CallKind.sync) [] none false [] [] [] none

def failWorld0 : World :=
  ⟨[(0, .func (.native 1) [])], 1, Svc.empty, Svc.empty⟩

/-- The throwing-function scenario after registration and exchange. -/
def failWorld : World :=
  exchangeDescriptors
    (failWorld0.withCtx .A (registerTargetObject (failWorld0.ctx .A) "host_func" (.ref 0) failDescr))
    .A

def failProxyBuilt : Ctx × Except String JSVal :=
  createProxyObject (failWorld.ctx .B) "host_func"

def failWorldReady : World := failWorld.withCtx .B failProxyBuilt.1

/-- C4: for the registered sync function that throws `new Error(ErRoR)`,
the dispatcher catches the error and sends one synchronous reply with
success false whose result is the string form of the error, and the client
proxy call throws an Error whose message equals that string form (the
target was still applied exactly once). -/
theorem c4_sync_throw_stringified_and_rethrown :
    (callTargetFunction implTable 10 (failWorldReady.ctx .A)
        ⟨.fn_call, .sync, "host_func", none, [], none, true⟩ fullCaps).syncReply
      = some ⟨.sync, false, .str "Error: ErRoR", none, true⟩ ∧
    (invokeProxy implTable 10 failWorldReady .B 1 [] fullCaps fullCaps).2
      = ([Event.applied 1 .null []], Outcome.threw "Error: ErRoR") :=
  ⟨rfl, rfl⟩

/-- C3: for every incoming call message, a void call produces no reply under
any outcome (the dispatcher sends nothing whether the target resolution,
the invocation or anything else throws), and a sync call produces exactly
one synchronous fn_reply — success flag and payload whatever the dispatch
produced — whenever the reply channel has a synchronous send. -/
theorem c3_void_silent_sync_exactly_one_reply (impl : Impl) (fuel : Nat)
    (c : Ctx) (msg : CallMsg) (replyCaps : ChannelCaps) :
    (msg.callType = CallKind.void →
      (callTargetFunction impl fuel c msg replyCaps).syncReply = none ∧
      (callTargetFunction impl fuel c msg replyCaps).asyncReplies = []) ∧
    (msg.callType = CallKind.sync → replyCaps.hasSync = true →
      ∃ success result,
        (callTargetFunction impl fuel c msg replyCaps).syncReply
          = some ⟨CallKind.sync, success, result, none, true⟩ ∧
        (callTargetFunction impl fuel c msg replyCaps).asyncReplies = []) := by
  rcases hdc : dispatchCall impl fuel c msg with ⟨c', evs, success, result⟩
  constructor
  · intro hv
    simp [callTargetFunction, hv, hdc]
  · intro hs hr
    refine ⟨success, result, ?_, ?_⟩ <;> simp [callTargetFunction, hs, hr, hdc]

/-- Witness for C3 at concrete inputs: a marked void mthd_call to servobj
draws no reply, and a marked sync mthd_call draws exactly one synchronous
reply. -/
theorem c3_void_silent_sync_exactly_one_reply_witness :
    ((callTargetFunction implTable 10 (addWorldReady.ctx .A)
        ⟨.mthd_call, .void, "servobj", some "add", [.num 1, .num 2], none, true⟩
        fullCaps).syncReply = none ∧
     (callTargetFunction implTable 10 (addWorldReady.ctx .A)
        ⟨.mthd_call, .void, "servobj", some "add", [.num 1, .num 2], none, true⟩
        fullCaps).asyncReplies = []) ∧
    (∃ success result,
      (callTargetFunction implTable 10 (addWorldReady.ctx .A)
          ⟨.mthd_call, .sync, "servobj", some "add", [.num 1, .num 2], none, true⟩
          fullCaps).syncReply
        = some ⟨CallKind.sync, success, result, none, true⟩ ∧
      (callTargetFunction implTable 10 (addWorldReady.ctx .A)
          ⟨.mthd_call, .sync, "servobj", some "add", [.num 1, .num 2], none, true⟩
          fullCaps).asyncReplies = []) :=
  ⟨(c3_void_silent_sync_exactly_one_reply implTable 10 (addWorldReady.ctx .A)
      ⟨.mthd_call, .void, "servobj", some "add", [.num 1, .num 2], none, true⟩
      fullCaps).1 rfl,
   (c3_void_silent_sync_exactly_one_reply implTable 10 (addWorldReady.ctx .A)
      ⟨.mthd_call, .sync, "servobj", some "add", [.num 1, .num 2], none, true⟩
      fullCaps).2 rfl rfl⟩

/-- Descriptor of a host function declared void. -/
def voidDescr : Descr := .mk none none (some CallKind.void) [] none false [] [] [] none

def voidWorld0 : World :=
  ⟨[(0, .func (.native 2) [])], 1, Svc.empty, Svc.empty⟩

def voidWorld : World :=
  exchangeDescriptors
    (voidWorld0.withCtx .A (registerTargetObject (voidWorld0.ctx .A) "notify" (.ref 0) voidDescr))
    .A

def voidProxyBuilt : Ctx × Except String JSVal :=
  createProxyObject (voidWorld.ctx .B) "notify"

def voidWorldReady : World := voidWorld.withCtx .B voidProxyBuilt.1

/-- Descriptor of a host function declared async. -/
def asyncFnDescr : Descr := .mk none none (some CallKind.async) [] none false [] [] [] none

def asyncWorld0 : World :=
  ⟨[(0, .func (.native 3) [])], 1, Svc.empty, Svc.empty⟩

def asyncWorld : World :=
  exchangeDescriptors
    (asyncWorld0.withCtx .A (registerTargetObject (asyncWorld0.ctx .A) "afn" (.ref 0) asyncFnDescr))
    .A

def asyncProxyBuilt : Ctx × Except String JSVal :=
  createProxyObject (asyncWorld.ctx .B) "afn"

def asyncWorldReady : World := asyncWorld.withCtx .B asyncProxyBuilt.1

/-- C2 counterexample: a sync-declared proxy call over a channel that has
only sendAsync is not degraded to async — createSyncProxyFunction calls
sendSync unconditionally, the optional-chained send does nothing, and the
undefined response raises "No response received"; nothing reaches the host
(no events, world unchanged), so the call does not complete with the
declared result. -/
theorem c2_counterexample_sync_call_not_degraded :
    (invokeProxy implTable 10 addWorldReady .B 3 [.num 2, .num 3]
        asyncOnlyCaps asyncOnlyCaps)
      = (addWorldReady, [], Outcome.threw "No response received") ∧
    (invokeProxy implTable 10 addWorldReady .B 3 [.num 2, .num 3]
        asyncOnlyCaps asyncOnlyCaps).2.2 ≠ Outcome.ret (.num 5) :=
  ⟨rfl, by decide⟩

/-- C2 amended: automatic channel-capability degradation exists only where
sendAsyncIfPossible / sendSyncIfPossible are used — a void-declared call on
a sync-only channel falls back to the synchronous send and still reaches the
host (first conjunct); a sync-declared call without sendSync instead throws
locally and an async-declared call without sendAsync sends nothing, leaving
its promise pending (remaining conjuncts). -/
theorem c2_amended_degradation_only_for_void_sends :
    (invokeProxy implTable 10 voidWorldReady .B 1 [.num 1]
        syncOnlyCaps syncOnlyCaps).2
      = ([Event.applied 2 .null [.num 1]], Outcome.ret .undefined) ∧
    (invokeProxy implTable 10 asyncWorldReady .B 1 [.num 7]
        syncOnlyCaps syncOnlyCaps).2
      = ([], Outcome.promisePending 1) ∧
    (invokeProxy implTable 10 addWorldReady .B 3 [.num 2, .num 3]
        asyncOnlyCaps asyncOnlyCaps).2
      = ([], Outcome.threw "No response received") :=
  ⟨rfl, rfl, rfl⟩

/-- Object-form descriptor of the proxied property color. -/
def colorPropDescr : Descr := .mk none (some "color") none [] none false [] [] [] none

/-- Object-form descriptor of the readonly proxied property roID. -/
def roPropDescr : Descr := .mk none (some "roID") none [] none true [] [] [] none

/-- Host object descriptor declaring counter as a bare string property and
color / roID in object form. -/
def propObjDescr : Descr :=
  .mk none none none [] none false []
    [Sum.inl "counter", Sum.inr colorPropDescr, Sum.inr roPropDescr] [] none

def propWorld0 : World :=
  ⟨[(0, .obj none
      [("counter", .num 1), ("color", .str "blue"), ("roID", .str "readonly")]
      [] none)], 1, Svc.empty, Svc.empty⟩

def propWorld : World :=
  exchangeDescriptors
    (propWorld0.withCtx .A (registerTargetObject (propWorld0.ctx .A) "host_obj" (.ref 0) propObjDescr))
    .A

def propProxyBuilt : Ctx × Except String JSVal :=
  createProxyObject (propWorld.ctx .B) "host_obj"

def propWorldReady : World := propWorld.withCtx .B propProxyBuilt.1

/-- C7: the proxied-property contract and where the code breaks it.
Reading the proxy property counter issues a sync prop_get returning the live
host value (first conjunct); the readonly property roID gets no setter
(second conjunct); writing the object-form declared property color updates
the host field so the next read observes it (third and fourth conjuncts).
But for the property declared by the bare string counter — the very form the
repository test suite writes through — the prop_set handler resolves no
property descriptor and dereferences `descr.argument` off undefined, so the
write throws a TypeError, replies failure, and leaves the host field
unchanged (last conjuncts): the code contradicts the contract for
string-declared properties. -/
theorem c7_proxied_property_contract_and_propset_bug :
    (invokeProxy implTable 10 propWorldReady .B 2 [] fullCaps fullCaps).2
      = ([], Outcome.ret (.num 1)) ∧
    propWorldReady.heap.getAccessor 1 "roID" = some (.ref 6, none) ∧
    (invokeProxy implTable 10 propWorldReady .B 5 [.str "green"] fullCaps fullCaps).2.2
      = Outcome.ret .undefined ∧
    (invokeProxy implTable 10
        (invokeProxy implTable 10 propWorldReady .B 5 [.str "green"] fullCaps fullCaps).1
        .B 4 [] fullCaps fullCaps).2.2
      = Outcome.ret (.str "green") ∧
    (invokeProxy implTable 10 propWorldReady .B 3 [.num 2] fullCaps fullCaps).2.2
      = Outcome.threw "TypeError: Cannot read properties of undefined (reading argument)" ∧
    ((invokeProxy implTable 10 propWorldReady .B 3 [.num 2] fullCaps fullCaps).1).heap.getField 0 "counter"
      = JSVal.num 1 :=
  ⟨rfl, rfl, rfl, rfl, rfl, rfl⟩

/-- Invoke the same proxy function n times in sequence, threading the world
and concatenating the events. -/
def invokeNTimes (impl : Impl) (fuel : Nat) (side : Side) (fnAddr : Nat)
    (args : List JSVal) (sendCaps replyCaps : ChannelCaps) :
    Nat → World → World × List Event
  | 0, w => (w, [])
  | n + 1, w =>
    let r := invokeProxy impl fuel w side fnAddr args sendCaps replyCaps
    let rest := invokeNTimes impl fuel side fnAddr args sendCaps replyCaps n r.1
    (rest.1, r.2.1 ++ rest.2)

/-- Argument descriptor declaring the callback parameter void-returning. -/
def cbArgDescr : Descr := .mk none none (some CallKind.void) [] none false [] [] [] none

/-- Descriptor of the sync host function reg taking a callback argument. -/
def regDescr : Descr :=
  .mk none none (some CallKind.sync) [(none, cbArgDescr)] none false [] [] [] none

/-- Heap for the callback scenario: the host function reg at 0 and the local
client callback at 1. -/
def cbWorld0 : World :=
  ⟨[(0, .func (.native 4) []), (1, .func (.native 2) [])], 2, Svc.empty, Svc.empty⟩

def cbWorldX : World :=
  exchangeDescriptors
    (cbWorld0.withCtx .A (registerTargetObject (cbWorld0.ctx .A) "reg" (.ref 0) regDescr))
    .A

def cbProxyBuilt : Ctx × Except String JSVal :=
  createProxyObject (cbWorldX.ctx .B) "reg"

def cbWorldReady : World := cbWorldX.withCtx .B cbProxyBuilt.1

/-- The client calls reg, passing its local callback function. -/
def cbSetupCall : World × List Event × Outcome :=
  invokeProxy implTable 10 cbWorldReady .B 2 [.ref 1] fullCaps fullCaps

/-- The world after the callback has crossed the wire: the client registered
the callback under id0, the host holds the reconstructed proxy at 4. -/
def cbWorld : World := cbSetupCall.1

/-- Serializing the already-registered callback a second time. -/
def cbReserialized : Ctx × List JSVal :=
  serializeFunctionArgs 10 (cbWorld.ctx .B) (some regDescr) [.ref 1]

/-- C5: callback round trip.  Passing the local function as an argument to
the remote reg call registers it under id0, stamps `_rpc_objId` on it and
emits a function reference token (first four conjuncts); serializing it
again reuses the existing id without a second registration (next three);
the host received a reconstructed remote proxy in its place (next one); and
every invocation of that proxy — any number of times, the proxy not being
disposed — delivers a call message that applies the original local function
to the same deserialized arguments (last conjunct). -/
theorem c5_callback_roundtrip_until_disposed :
    cbWorld.heap.getField 1 "_rpc_objId" = JSVal.str "id0" ∧
    cbWorld.heap.getField 3 "_rpc_type" = JSVal.str "function" ∧
    cbWorld.heap.getField 3 "objId" = JSVal.str "id0" ∧
    (cbWorld.ctx .B).svc.localObjectRegistry.map Prod.fst = ["id0"] ∧
    cbReserialized.2 = [JSVal.ref 5] ∧
    cbReserialized.1.heap.getField 5 "objId" = JSVal.str "id0" ∧
    cbReserialized.1.svc.localObjectRegistry.map Prod.fst = ["id0"] ∧
    cbSetupCall.2 = ([Event.applied 4 .null [.ref 4]], Outcome.ret .undefined) ∧
    (∀ n : Nat,
      invokeNTimes implTable 10 .A 4 [.num 7] fullCaps fullCaps n cbWorld
        = (cbWorld, List.replicate n (Event.applied 2 .null [.num 7]))) := by
  refine ⟨rfl, rfl, rfl, rfl, rfl, rfl, rfl, rfl, ?_⟩
  intro n
  induction n with
  | zero => rfl
  | succ n ih =>
    have hstep : invokeProxy implTable 10 cbWorld .A 4 [.num 7] fullCaps fullCaps
        = (cbWorld, [Event.applied 2 .null [.num 7]], Outcome.ret .undefined) := rfl
    simp [invokeNTimes, hstep, ih, List.replicate_succ]

/-- First of two back-to-back createProxyObject calls for the same id. -/
def proxyTwiceFirst : Ctx × Except String JSVal :=
  createProxyObject (addWorld.ctx .B) "servobj"

/-- Second createProxyObject call for the same id. -/
def proxyTwiceSecond : Ctx × Except String JSVal :=
  createProxyObject proxyTwiceFirst.1 "servobj"

/-- C6 counterexample: createProxyObject of src/lib/rpc-proxy.ts is not
memoized — two requests for the same exchanged id build two distinct proxy
objects (fresh allocations at 2 and at 4), so reference equality fails. -/
theorem c6_counterexample_createProxyObject_fresh_each_call :
    proxyTwiceFirst.2 = .ok (JSVal.ref 2) ∧
    proxyTwiceSecond.2 = .ok (JSVal.ref 4) ∧
    proxyTwiceFirst.2 ≠ proxyTwiceSecond.2 := by
  refine ⟨rfl, rfl, ?_⟩
  intro h
  rw [show proxyTwiceFirst.2 = .ok (JSVal.ref 2) from rfl,
      show proxyTwiceSecond.2 = .ok (JSVal.ref 4) from rfl] at h
  cases h

/-- First of two getProxyObject calls for the same id. -/
def getProxyTwiceFirst : Ctx × Except String JSVal :=
  getProxyObject (addWorld.ctx .B) "servobj"

/-- Second getProxyObject call for the same id, in the state left by the
first. -/
def getProxyTwiceSecond : Ctx × Except String JSVal :=
  getProxyObject getProxyTwiceFirst.1 "servobj"

/-- C6 amended: proxy creation is idempotent exactly where the source
memoizes.  getProxyObject of the later iteration returns the registered
proxy instance on a repeated request (same reference, first two conjuncts),
and deserializing the same function reference token twice yields the same
registered proxy function (last two conjuncts); createProxyObject and
createProxyClass of src/lib/rpc-proxy.ts, by contrast, build a fresh proxy
on every call. -/
theorem c6_amended_memoized_paths_idempotent :
    getProxyTwiceFirst.2 = .ok (JSVal.ref 2) ∧
    getProxyTwiceSecond.2 = .ok (JSVal.ref 2) ∧
    (postprocessSerialization 10 (cbWorld.ctx .A) (.ref 3) none).2 = JSVal.ref 4 ∧
    (postprocessSerialization 10
        (postprocessSerialization 10 (cbWorld.ctx .A) (.ref 3) none).1
        (.ref 3) none).2 = JSVal.ref 4 :=
  ⟨rfl, rfl, rfl, rfl⟩

/-- C8: invoking any proxy function whose rpc_disposed flag has been set
fails immediately and locally — the world is unchanged, no call message
reaches the peer and no target runs — with the disposed error: thrown
synchronously by the void and sync strategies, and as a promise rejection
by the async strategy whose executor throws. -/
theorem c8_disposed_proxy_fails_locally_no_send (impl : Impl) (fuel : Nat)
    (w : World) (side : Side) (addr : Nat) (args : List JSVal)
    (sendCaps replyCaps : ChannelCaps) (kind : CallKind) (objId : String)
    (descr : Descr) (action : CallAction) (fields : Fields)
    (hf : w.heap.get addr = some (.func (.proxy kind objId descr action) fields))
    (hd : fields.get "rpc_disposed" = JSVal.bool true) :
    invokeProxy impl fuel w side addr args sendCaps replyCaps
      = (w, [],
         match kind with
         | .async => Outcome.promiseRejected "Remote function has been disposed"
         | _ => Outcome.threw "Remote function has been disposed") := by
  cases kind <;> (unfold invokeProxy; simp [hf, hd])

/-- The callback scenario after the host side manually disposes the
reconstructed callback proxy (its registration used token 0, id0, addr 4). -/
def cbWorldDisposed : World :=
  rpcDispose implTable 10 cbWorld .A "id0" 0 4 fullCaps

/-- Witness for C8: invoking the disposed callback proxy at the concrete
disposed world fails locally with the disposed error and sends nothing. -/
theorem c8_disposed_proxy_fails_locally_no_send_witness :
    invokeProxy implTable 10 cbWorldDisposed .A 4 [.num 7] fullCaps fullCaps
      = (cbWorldDisposed, [], Outcome.threw "Remote function has been disposed") :=
  c8_disposed_proxy_fails_locally_no_send implTable 10 cbWorldDisposed .A 4
    [.num 7] fullCaps fullCaps .void "id0" (cbArgDescr.withDtype "function")
    .fn_call [("rpc_disposed", .bool true)] rfl rfl

/-- A service holding two local entries, to observe that obj_died deletes
exactly the named one. -/
def twoEntrySvc : Svc :=
  { Svc.empty with
    localObjectRegistry := [("id0", ⟨.ref 1, none⟩), ("id1", ⟨.ref 1, none⟩)] }

/-- C9: disposal is exactly-once.  Before disposal the client holds one
local entry for the callback and the host holds one remote-registry entry
with one finalization token (first three conjuncts).  Manual rpc_dispose
removes the registry entry, unregisters the finalization token, sets
rpc_disposed and sends one obj_died, on whose receipt the peer registry
shrinks by exactly one (next four).  After manual disposal the finalizer
can no longer fire (next one); the GC path runs the very same disposal and
a second finalization is a no-op (next two).  A duplicate obj_died deletes
nothing further, and obj_died removes exactly the named entry from a
registry with several (last two). -/
theorem c9_disposal_exactly_once :
    (cbWorld.ctx .B).svc.localObjectRegistry.length = 1 ∧
    (cbWorld.ctx .A).svc.remoteObjectRegistry = [("id0", 4)] ∧
    (cbWorld.ctx .A).svc.finRegistry = [⟨0, "id0", 4⟩] ∧
    (cbWorldDisposed.ctx .A).svc.remoteObjectRegistry = [] ∧
    (cbWorldDisposed.ctx .A).svc.finRegistry = [] ∧
    cbWorldDisposed.heap.getField 4 "rpc_disposed" = JSVal.bool true ∧
    (cbWorldDisposed.ctx .B).svc.localObjectRegistry.length = 0 ∧
    gcFinalize implTable 10 cbWorldDisposed .A 4 fullCaps = cbWorldDisposed ∧
    gcFinalize implTable 10 cbWorld .A 4 fullCaps = cbWorldDisposed ∧
    gcFinalize implTable 10 (gcFinalize implTable 10 cbWorld .A 4 fullCaps) .A 4 fullCaps
      = cbWorldDisposed ∧
    ((messageReceived implTable 10 (cbWorldDisposed.ctx .B) (.objDied "id0" true)
        fullCaps).ctx.svc.localObjectRegistry.length = 0) ∧
    ((messageReceived implTable 10 ⟨twoEntrySvc, [], 0⟩ (.objDied "id0" true)
        fullCaps).ctx.svc.localObjectRegistry.map Prod.fst = ["id1"]) :=
  ⟨rfl, rfl, rfl, rfl, rfl, rfl, rfl, rfl, rfl, rfl, rfl, rfl⟩

/-- Class descriptor of TestClass, shipping name by value. -/
def testClassDescr : Descr := .mk none none none [] none false [] [] ["name"] none

/-- Heap for the mutation scenario: a caller-owned plain object at 0 holding
a function member cb, a primitive x and a registered-class instance inst. -/
def mutWorld0 : World :=
  ⟨[(0, .obj none [("cb", .ref 1), ("x", .num 5), ("inst", .ref 2)] [] none),
    (1, .func (.native 2) []),
    (2, .obj (some "TestClass") [("name", .str "n"), ("secret", .num 9)] [] none)],
   3, Svc.empty, Svc.empty⟩

def mutWorldReg : World :=
  mutWorld0.withCtx .A (registerProxyClass (mutWorld0.ctx .A) "TestClass" testClassDescr)

/-- Outbound serialization of the caller-owned object. -/
def mutResult : Ctx × JSVal :=
  preprocessSerialization 10 (mutWorldReg.ctx .A) (.ref 0) none

/-- C10: preprocessSerialization returns the caller-owned object itself and
has rewritten it in place — the function member cb now holds a
function-reference wire token, the class-instance member inst an object
token carrying classId and the shipped readonly props, while the primitive
member is untouched — and it stamped `_rpc_objId` onto both the function and
the instance it registered. -/
theorem c10_preprocess_mutates_caller_object :
    mutResult.2 = JSVal.ref 0 ∧
    mutResult.1.heap.getField 0 "cb" = JSVal.ref 3 ∧
    mutResult.1.heap.getField 3 "_rpc_type" = JSVal.str "function" ∧
    mutResult.1.heap.getField 3 "objId" = JSVal.str "id0" ∧
    mutResult.1.heap.getField 0 "inst" = JSVal.ref 5 ∧
    mutResult.1.heap.getField 5 "_rpc_type" = JSVal.str "object" ∧
    mutResult.1.heap.getField 5 "classId" = JSVal.str "TestClass" ∧
    mutResult.1.heap.getField 5 "props" = JSVal.ref 4 ∧
    mutResult.1.heap.getField 4 "name" = JSVal.str "n" ∧
    mutResult.1.heap.getField 0 "x" = JSVal.num 5 ∧
    mutResult.1.heap.getField 1 "_rpc_objId" = JSVal.str "id0" ∧
    mutResult.1.heap.getField 2 "_rpc_objId" = JSVal.str "id1" ∧
    mutResult.1.svc.localObjectRegistry.map Prod.fst = ["id0", "id1"] :=
  ⟨rfl, rfl, rfl, rfl, rfl, rfl, rfl, rfl, rfl, rfl, rfl, rfl, rfl⟩

end RpcPoc
